import Mathlib

set_option maxRecDepth 100000

/-!
Shallow embedding of the TASKFORCE multi-agent pipeline (`bot.py`):
configuration constants, the per-agent outcome computations, the intake
(fetch) pipeline's scout retry loop and dedup filter, the fulfillment
(execution) pipeline's control flow, the monetary-value extraction
heuristic, and the generation backend's retry/backoff loop.

External effects (HTTP, the Gemini backend, Firebase, e-mail, sleeps) are
modelled by explicit inputs: each agent takes the result of its underlying
generation call as an `Except` value (`Except.ok` = the parsed structured
response, `Except.error` = any exception raised by the call, carrying the
exception text), and the pipelines take one such value per call they make.
JSON objects are modelled as structures with `Option` fields: a missing key
is `none`, and `Option.getD` mirrors Python's `dict.get(key, default)`.
-/

namespace Taskforce

/-- `MIN_CONFIDENCE = 70` from the configuration block: the Evaluator
rejects tasks below this confidence. -/
def MIN_CONFIDENCE : ℤ := 70

/-- `MIN_QUALITY = 75` from the configuration block: the Critic triggers
the Improver below this score. -/
def MIN_QUALITY : ℤ := 75

/-- `MAX_RETRIES = 3` from the configuration block: maximum loops per
agent stage. -/
def MAX_RETRIES : ℕ := 3

/-- The whitespace characters removed by Python's `str.strip()`:
space, tab, newline, carriage return, vertical tab, form feed. -/
def isSpaceChar (c : Char) : Bool :=
  c = ' ' || c = '\t' || c = '\n' || c = '\r' || c.toNat = 11 || c.toNat = 12

/-- `len(s.strip())`: the number of characters of `s` once leading and
trailing whitespace is removed. -/
def strippedLength (s : String) : ℕ :=
  ((s.toList.dropWhile isSpaceChar).reverse.dropWhile isSpaceChar).length

/-- Structured response of the Scout agent (`agent_scout`), the fields the
orchestrator reads. -/
structure ScoutData where
  is_real_task : Option Bool := none
  rejection_reason : Option String := none
  deliverable_type : Option String := none
  deriving DecidableEq, Repr

/-- Outcome dict returned by `agent_scout`. -/
structure ScoutOutcome where
  approved : Bool
  data : ScoutData
  reason : String
  deriving DecidableEq, Repr

/-- `agent_scout`: approval is `data.get('is_real_task', False)`; the reason
is `'accepted'` on approval, else `data.get('rejection_reason', 'none')`;
any exception yields a rejection with a `scout_error` reason. -/
def agent_scout (resp : Except String ScoutData) : ScoutOutcome :=
  match resp with
  | Except.ok d =>
    let approved := d.is_real_task.getD false
    { approved := approved
      data := d
      reason := if approved then "accepted" else d.rejection_reason.getD "none" }
  | Except.error e => { approved := false, data := {}, reason := "scout_error: " ++ e }

/-- Structured response of the Evaluator agent, the fields the decision
reads. -/
structure EvalData where
  overall_confidence : Option ℤ := none
  verdict : Option String := none
  rejection_reason : Option String := none
  deriving DecidableEq, Repr

/-- Outcome dict returned by `agent_evaluator`. -/
structure EvalOutcome where
  approved : Bool
  data : EvalData
  reason : String
  deriving DecidableEq, Repr

/-- `agent_evaluator`: `approved = (verdict == 'accept') and
(confidence >= MIN_CONFIDENCE)` with `confidence =
data.get('overall_confidence', 0)` and `verdict = data.get('verdict',
'reject')`; any exception yields a rejection. -/
def agent_evaluator (resp : Except String EvalData) : EvalOutcome :=
  match resp with
  | Except.ok d =>
    let confidence := d.overall_confidence.getD 0
    let verdict := d.verdict.getD "reject"
    let approved := (verdict == "accept") && decide (MIN_CONFIDENCE ≤ confidence)
    { approved := approved
      data := d
      reason := if approved then "confidence=" ++ toString confidence ++ "%"
                else d.rejection_reason.getD "low confidence" }
  | Except.error e => { approved := false, data := {}, reason := "evaluator_error: " ++ e }

/-- The Planner's blueprint is a JSON object consumed only by prompt
construction; modelled as a flat key/value list, with `[]` for the empty
dict `{}`. -/
abbrev PlanData := List (String × String)

/-- Outcome dict returned by `agent_planner`. -/
structure PlanOutcome where
  approved : Bool
  data : PlanData
  reason : String
  deriving DecidableEq, Repr

/-- `agent_planner`: always approved; on any exception it degrades to an
empty blueprint rather than failing. -/
def agent_planner (resp : Except String PlanData) : PlanOutcome :=
  match resp with
  | Except.ok d => { approved := true, data := d, reason := "plan_ready" }
  | Except.error e => { approved := true, data := [], reason := "planner_degraded: " ++ e }

/-- Outcome dict returned by `agent_executor`. -/
structure ExecOutcome where
  approved : Bool
  output : Option String
  reason : String
  deriving DecidableEq, Repr

/-- `agent_executor`: a raw generation result whose stripped length is
below 150 characters raises `Output too short`, which the handler turns
into a failed outcome; any other exception also fails the attempt. -/
def agent_executor (resp : Except String String) : ExecOutcome :=
  match resp with
  | Except.ok out =>
    if strippedLength out < 150 then
      { approved := false, output := none
        reason := "executor_error: Output too short (" ++ toString out.length ++ " chars)" }
    else { approved := true, output := some out, reason := "executed" }
  | Except.error e => { approved := false, output := none, reason := "executor_error: " ++ e }

/-- Structured response of the Critic agent, the fields the orchestrator
reads. -/
structure CriticData where
  quality_score : Option ℤ := none
  ready_to_send : Option Bool := none
  issues : List String := []
  deriving DecidableEq, Repr

/-- Outcome dict returned by `agent_critic`. -/
structure CriticOutcome where
  approved : Bool
  data : CriticData
  reason : String
  deriving DecidableEq, Repr

/-- `agent_critic`: `approved = score >= MIN_QUALITY and ready` with
`score = data.get('quality_score', 0)` and `ready =
data.get('ready_to_send', False)`; on any exception it degrades to an
approved outcome carrying `quality_score = 75`, `ready_to_send = True`. -/
def agent_critic (resp : Except String CriticData) : CriticOutcome :=
  match resp with
  | Except.ok d =>
    { approved := decide (MIN_QUALITY ≤ d.quality_score.getD 0) && d.ready_to_send.getD false
      data := d
      reason := "score=" ++ toString (d.quality_score.getD 0) }
  | Except.error e =>
    { approved := true
      data := { quality_score := some 75, ready_to_send := some true, issues := [] }
      reason := "critic_degraded: " ++ e }

/-- Outcome dict returned by `agent_improver`. -/
structure ImproverOutcome where
  approved : Bool
  output : Option String
  reason : String
  deriving DecidableEq, Repr

/-- `agent_improver`: always approved; a rewritten text whose stripped
length is below 150 characters, or any exception, falls back to the
original output. -/
def agent_improver (original : String) (resp : Except String String) : ImproverOutcome :=
  match resp with
  | Except.ok improved =>
    if strippedLength improved < 150 then
      { approved := true, output := some original
        reason := "improver_failed: Improved output too short" }
    else { approved := true, output := some improved, reason := "improved" }
  | Except.error e =>
    { approved := true, output := some original, reason := "improver_failed: " ++ e }

/-- The rejection reasons that short-circuit the Scout retry loop
(`run_fetch_pipeline`, the tuple in the "Clear rejections don't retry"
check). -/
def definitiveReasons : List String := ["job_listing", "self_promotion", "in_person", "scam"]

/-- The Scout retry loop of `run_fetch_pipeline`, unrolled from
`for attempt in range(MAX_RETRIES)` with `MAX_RETRIES = 3`: each attempt's
underlying call result is `resps attempt`; the loop breaks on approval or
on a definitive rejection reason, and otherwise retries; the result after
the loop is the last attempt's outcome.  Returns the outcome together with
the number of attempts made. -/
def scoutLoop (resps : ℕ → Except String ScoutData) : ScoutOutcome × ℕ :=
  let r0 := agent_scout (resps 0)
  if r0.approved then (r0, 1)
  else if r0.reason ∈ definitiveReasons then (r0, 1)
  else
    let r1 := agent_scout (resps 1)
    if r1.approved then (r1, 2)
    else if r1.reason ∈ definitiveReasons then (r1, 2)
    else (agent_scout (resps 2), 3)

/-- The Executor retry loop of `run_execution_pipeline`, unrolled from
`for attempt in range(MAX_RETRIES)`: breaks on the first approved attempt
with its output; after three failed attempts no output is produced.
Returns the output (if any) together with the number of attempts made. -/
def execLoop (resps : ℕ → Except String String) : Option String × ℕ :=
  let r0 := agent_executor (resps 0)
  if r0.approved then (r0.output, 1)
  else
    let r1 := agent_executor (resps 1)
    if r1.approved then (r1.output, 2)
    else
      let r2 := agent_executor (resps 2)
      if r2.approved then (r2.output, 3) else (none, 3)

/-- The persisted Task status values of the program. -/
inductive TaskStatus where
  | inbox
  | approved
  | executing
  | done
  | done_flagged
  | error
  deriving DecidableEq, Repr

/-- The underlying call results consumed by one Task's pass through
`run_execution_pipeline`: one Planner call, up to three Executor attempts,
a first Critic call, one Improver call and a re-review Critic call. -/
structure ExecBehavior where
  planner_resp : Except String PlanData
  executor_resps : ℕ → Except String String
  critic1_resp : Except String CriticData
  improver_resp : Except String String
  critic2_resp : Except String CriticData

/-- The fields of the Task record written when a fulfillment run ends:
the final status, the persisted quality score and output (absent on
`error`), how many times the Improver ran, and the diagnostic message
written on `error`. -/
structure FinalRec where
  status : TaskStatus
  qualityScore : Option ℤ
  output : Option String
  improverCalls : ℕ
  errorMsg : Option String
  deriving DecidableEq, Repr

/-- The finalization PATCH of `run_execution_pipeline`:
`final_status = 'done' if score >= MIN_QUALITY else 'done_flagged'`. -/
def finalizeRec (out : String) (score : ℤ) (calls : ℕ) : FinalRec :=
  { status := if MIN_QUALITY ≤ score then TaskStatus.done else TaskStatus.done_flagged
    qualityScore := some score
    output := some out
    improverCalls := calls
    errorMsg := none }

/-- The record written by the `except` branch of `run_execution_pipeline`
when the Executor exhausts its retries: only `status` and `error` are
patched. -/
def errorRec : FinalRec :=
  { status := TaskStatus.error
    qualityScore := none
    output := none
    improverCalls := 0
    errorMsg := some ("Executor failed after " ++ toString MAX_RETRIES ++ " attempts") }

/-- One Task's pass through `run_execution_pipeline`.  The Planner runs
first but its outcome is always approved and its blueprint only shapes the
Executor's prompt (absorbed into `executor_resps`), so it carries no
control-flow effect.  If no Executor attempt is approved the pipeline
raises and the Task is patched to `error`.  Otherwise the Critic reviews;
if it rejects, the Improver rewrites once and the Critic re-reviews, the
new score defaulting to the previous one when the re-review response lacks
`quality_score`.  Finally the Task is patched with the quality-derived
status. -/
def runTask (b : ExecBehavior) : FinalRec :=
  match (execLoop b.executor_resps).1 with
  | none => errorRec
  | some out =>
    let critic1 := agent_critic b.critic1_resp
    let score := critic1.data.quality_score.getD 0
    if critic1.approved then finalizeRec out score 0
    else
      let out2 := (agent_improver out b.improver_resp).output.getD out
      let recheck := agent_critic b.critic2_resp
      finalizeRec out2 (recheck.data.quality_score.getD score) 1

/-- The selection filter of `run_execution_pipeline`: only records whose
status is `'approved'` are picked up. -/
def selectApproved (tasks : List (String × TaskStatus)) : List (String × TaskStatus) :=
  tasks.filter (fun kv => decide (kv.2 = TaskStatus.approved))

/-!
### Monetary-value extraction (`extract_pay`)

`extract_pay` first runs the case-insensitive salary-pattern search
`per (month|year|deal|hour|hr|week)\b|\bsalar|\bcommission\b|\bannual|\bhourly`
and yields nothing on a hit; otherwise it collects every occurrence of
`\$\s*(\d+(?:,\d+)?(?:\.\d+)?)`, keeps the values strictly between 0 and
5000 (commas removed), and formats the maximum as `$` followed by the
value rounded to zero decimals.  The regexes are embedded directly: word
characters are ASCII alphanumerics and underscore, and numeric values are
modelled as rationals (every vector of interest is exactly representable).
-/

/-- A regex word character (`\w` over the ASCII inputs at hand). -/
def isWordChar (c : Char) : Bool := c.isAlphanum || c = '_'

/-- Case-insensitive literal match: on success returns the remainder of the
input after the pattern. -/
def ciMatch : List Char → List Char → Option (List Char)
  | [], s => some s
  | _ :: _, [] => none
  | p :: ps, c :: cs => if p.toLower = c.toLower then ciMatch ps cs else none

/-- `\b` at the end of a matched word: the remainder starts with a
non-word character or is empty. -/
def wordBoundary : List Char → Bool
  | [] => true
  | c :: _ => !(isWordChar c)

/-- `\b` before a word: the preceding character (if any) is a non-word
character. -/
def boundaryBefore : Option Char → Bool
  | none => true
  | some c => !(isWordChar c)

/-- The alternation `(month|year|deal|hour|hr|week)` following `per `. -/
def salaryWords : List (List Char) :=
  [String.toList "month", String.toList "year", String.toList "deal",
   String.toList "hour", String.toList "hr", String.toList "week"]

/-- Does one alternative of the salary pattern match at this position,
given the previous character? -/
def salaryHitAt (prev : Option Char) (s : List Char) : Bool :=
  (salaryWords.any fun w =>
    match ciMatch (String.toList "per " ++ w) s with
    | some rest => wordBoundary rest
    | none => false) ||
  (boundaryBefore prev && (ciMatch (String.toList "salar") s).isSome) ||
  (boundaryBefore prev &&
    (match ciMatch (String.toList "commission") s with
     | some rest => wordBoundary rest
     | none => false)) ||
  (boundaryBefore prev && (ciMatch (String.toList "annual") s).isSome) ||
  (boundaryBefore prev && (ciMatch (String.toList "hourly") s).isSome)

/-- `re.search` of the salary pattern: does it match at any position? -/
def salarySearchAux : Option Char → List Char → Bool
  | _, [] => false
  | prev, c :: cs => salaryHitAt prev (c :: cs) || salarySearchAux (some c) cs

/-- Numeric value of a digit string. -/
def natOfDigits (ds : List Char) : ℕ :=
  ds.foldl (fun acc c => 10 * acc + (c.toNat - '0'.toNat)) 0

/-- The exact decimal number a money match denotes (what `float(...)` is
applied to after removing commas): the concatenated digits over a
power-of-ten scale, i.e. the value `num / 10 ^ scale`.  Every vector of
interest is exactly representable, so this agrees with the source's float
values. -/
structure MoneyVal where
  num : ℕ
  scale : ℕ
  deriving DecidableEq, Repr

/-- Value comparison: `a.num / 10^a.scale < b.num / 10^b.scale`. -/
def mvLt (a b : MoneyVal) : Bool :=
  decide (a.num * 10 ^ b.scale < b.num * 10 ^ a.scale)

/-- `0 < v`. -/
def mvPos (v : MoneyVal) : Bool := decide (0 < v.num)

/-- `v < n` for a whole number `n`. -/
def mvLtNat (v : MoneyVal) (n : ℕ) : Bool := decide (v.num < n * 10 ^ v.scale)

/-- Python's `max` over the values: keeps the earlier element on ties. -/
def mvMax (a b : MoneyVal) : MoneyVal := if mvLt a b then b else a

/-- Match `\s*(\d+(?:,\d+)?(?:\.\d+)?)` after a `$`: optional whitespace,
a maximal digit run, an optional single comma group, an optional fraction;
returns the numeric value (commas removed) and the remainder of the
input. -/
def parseMoney (s : List Char) : Option (MoneyVal × List Char) :=
  let s1 := s.dropWhile isSpaceChar
  let ds := s1.takeWhile Char.isDigit
  let r1 := s1.dropWhile Char.isDigit
  if ds.isEmpty then none
  else
    let step2 :=
      match r1 with
      | ',' :: rest =>
        let ds2 := rest.takeWhile Char.isDigit
        if ds2.isEmpty then (ds, r1) else (ds ++ ds2, rest.dropWhile Char.isDigit)
      | _ => (ds, r1)
    let step3 :=
      match step2.2 with
      | '.' :: rest =>
        let ds3 := rest.takeWhile Char.isDigit
        if ds3.isEmpty then (([] : List Char), step2.2) else (ds3, rest.dropWhile Char.isDigit)
      | _ => ([], step2.2)
    some ({ num := natOfDigits (step2.1 ++ step3.1), scale := step3.1.length }, step3.2)

/-- `re.findall` of the money pattern, scanning left to right; the fuel
argument bounds the recursion by the input length (each step consumes at
least one character). -/
def scanMoneyAux : ℕ → List Char → List MoneyVal
  | 0, _ => []
  | _ + 1, [] => []
  | fuel + 1, c :: rest =>
    if c = '$' then
      match parseMoney rest with
      | some (v, rest2) => v :: scanMoneyAux fuel rest2
      | none => scanMoneyAux fuel rest
    else scanMoneyAux fuel rest

/-- All money values found in the text, in order. -/
def scanMoney (s : List Char) : List MoneyVal := scanMoneyAux s.length s

/-- Round half to even, as Python's `f"{x:.0f}"` formatting does. -/
def roundHalfEvenMv (v : MoneyVal) : ℕ :=
  let p := 10 ^ v.scale
  let f := v.num / p
  let r := v.num % p
  if 2 * r < p then f
  else if p < 2 * r then f + 1
  else if f % 2 = 0 then f else f + 1

/-- `f"${max(vals):.0f}"`. -/
def formatDollars (v : MoneyVal) : String := "$" ++ toString (roundHalfEvenMv v)

/-- `extract_pay`: nothing on a salary-pattern hit; otherwise the maximum
matched value strictly between 0 and 5000, formatted, or nothing when no
value survives the filter. -/
def extract_pay (text : String) : Option String :=
  if salarySearchAux none text.toList then none
  else
    let vals := (scanMoney text.toList).filter (fun v => mvPos v && mvLtNat v 5000)
    match vals with
    | [] => none
    | v :: vs => some (formatDollars (vs.foldl mvMax v))

/-!
### Intake pipeline (`run_fetch_pipeline`)

The dedup filter and the per-item Scout/Evaluator gating.  The raw feed
items and the agents' underlying call results are inputs; the result
records which item ids were evaluated and which were persisted (with the
extracted pay), mirroring the `fb('/tasks/{id}', 'PUT', task)` writes.
-/

/-- A parsed feed item as produced by `parse_rss`. -/
structure RawItem where
  id : String
  title : String
  description : String
  deriving DecidableEq, Repr

/-- What a fetch run did: the ids it ran through the agents and the
(id, pay) pairs it persisted as new Tasks. -/
structure FetchResult where
  evaluatedIds : List String
  persisted : List (String × Option String)
  deriving DecidableEq, Repr

/-- An item becomes an accepted Task when the Scout loop approves it and
the Evaluator approves it. -/
def itemAccepted (scoutR : ℕ → Except String ScoutData) (evalR : Except String EvalData) : Bool :=
  (scoutLoop scoutR).1.approved && (agent_evaluator evalR).approved

/-- `run_fetch_pipeline`: `existing_ids` is the key set of the task
collection read at the start of the run; only items whose id is not in it
(`new_raw`) are evaluated, and of those only the accepted ones are
persisted, with `extract_pay(title + ' ' + description)` as pay. -/
def fetchRun (existingIds : List String) (raw : List RawItem)
    (scoutR : RawItem → ℕ → Except String ScoutData)
    (evalR : RawItem → Except String EvalData) : FetchResult :=
  let newRaw := raw.filter (fun t => decide (t.id ∉ existingIds))
  { evaluatedIds := newRaw.map (fun t => t.id)
    persisted := (newRaw.filter (fun t => itemAccepted (scoutR t) (evalR t))).map
      (fun t => (t.id, extract_pay (t.title ++ " " ++ t.description))) }

/-!
### Generation backend (`gemini`)

The `for attempt in range(3)` retry loop around the HTTP call, unrolled.
Each attempt's observable response is an input; sleeps are recorded.
-/

/-- What one HTTP attempt of `gemini` can observe: a 429 status, an
exception (non-2xx status, network error, timeout), a 200 response whose
body fails structured parsing (raises `ValueError` immediately), or a
usable response text. -/
inductive GenResp where
  | rateLimited
  | failure
  | invalidJson
  | ok (text : String)
  deriving DecidableEq, Repr

/-- How a `gemini` call ends: returning a value, raising to the caller, or
falling out of the retry loop and returning Python's implicit `None`. -/
inductive GemResult where
  | success (text : String)
  | raised
  | returnedNone
  deriving DecidableEq, Repr

/-- One loop iteration: either the loop ends with a result, or it sleeps
and retries. -/
inductive GemStep where
  | finished (r : GemResult)
  | retryAfter (sleep : ℕ)
  deriving DecidableEq, Repr

/-- The body of the `gemini` retry loop at a given 0-based attempt index:
a 429 sleeps `30 * (attempt + 1)` seconds and continues; an exception
re-raises on the last attempt (`attempt == 2`) and otherwise sleeps 5
seconds and continues; an unparseable structured body raises immediately;
a usable response returns. -/
def geminiStep (resp : GenResp) (attempt : ℕ) : GemStep :=
  match resp with
  | GenResp.rateLimited => GemStep.retryAfter (30 * (attempt + 1))
  | GenResp.failure => if attempt = 2 then GemStep.finished GemResult.raised
                       else GemStep.retryAfter 5
  | GenResp.invalidJson => GemStep.finished GemResult.raised
  | GenResp.ok t => GemStep.finished (GemResult.success t)

/-- The `gemini` call: three attempts; if the third also asks to retry the
loop ends and the function returns `None`.  Returns the outcome and the
list of sleeps performed. -/
def geminiModel (resps : ℕ → GenResp) : GemResult × List ℕ :=
  match geminiStep (resps 0) 0 with
  | GemStep.finished r => (r, [])
  | GemStep.retryAfter s0 =>
    match geminiStep (resps 1) 1 with
    | GemStep.finished r => (r, [s0])
    | GemStep.retryAfter s1 =>
      match geminiStep (resps 2) 2 with
      | GemStep.finished r => (r, [s0, s1])
      | GemStep.retryAfter s2 => (GemResult.returnedNone, [s0, s1, s2])

/-!
### Concrete run inputs

Sample behaviors used to evaluate the pipeline at specific runs.
-/

/-- A deliverable text comfortably above the 150-character minimum. -/
def longText : String := String.mk (List.replicate 200 'a')

/-- A run whose Executor succeeds and whose first review passes (score 80,
ready to send). -/
def bHighScore : ExecBehavior :=
  { planner_resp := Except.ok []
    executor_resps := fun _ => Except.ok longText
    critic1_resp := Except.ok { quality_score := some 80, ready_to_send := some true }
    improver_resp := Except.ok longText
    critic2_resp := Except.ok {} }

/-- A run whose first review rejects (score 40) and whose re-review is
still below the threshold (score 50). -/
def bLowRescore : ExecBehavior :=
  { planner_resp := Except.ok []
    executor_resps := fun _ => Except.ok longText
    critic1_resp := Except.ok { quality_score := some 40, ready_to_send := some true }
    improver_resp := Except.ok (String.mk (List.replicate 200 'b'))
    critic2_resp := Except.ok { quality_score := some 50, ready_to_send := some true } }

/-- A run whose Executor produces a too-short output on every attempt. -/
def bShortOutput : ExecBehavior :=
  { planner_resp := Except.ok []
    executor_resps := fun _ => Except.ok "hi"
    critic1_resp := Except.ok {}
    improver_resp := Except.ok ""
    critic2_resp := Except.ok {} }

/-- A run where every Planner, Critic and Improver call fails but the
Executor succeeds. -/
def bDegraded : ExecBehavior :=
  { planner_resp := Except.error "boom"
    executor_resps := fun _ => Except.ok longText
    critic1_resp := Except.error "boom"
    improver_resp := Except.error "boom"
    critic2_resp := Except.error "boom" }

/-- A run whose first review call fails while the Executor succeeds. -/
def bCriticDown : ExecBehavior :=
  { planner_resp := Except.ok []
    executor_resps := fun _ => Except.ok longText
    critic1_resp := Except.error "kaboom"
    improver_resp := Except.ok longText
    critic2_resp := Except.ok {} }

/-- Scout call results whose first attempt is a definitive rejection. -/
def wScoutDefinitive : ℕ → Except String ScoutData := fun i =>
  if i = 0 then
    Except.ok { is_real_task := some false, rejection_reason := some "self_promotion" }
  else Except.error "unused"

/-- Scout call results that fail on every attempt with a non-definitive
reason. -/
def wScoutFlaky : ℕ → Except String ScoutData := fun _ => Except.error "boom"

/-- A feed item whose id collides with an existing Task. -/
def wItem : RawItem := { id := "abc123", title := "t", description := "d" }

/-!
### Helper lemmas
-/

/-- Splitting `runTask` on a failed Executor loop. -/
lemma runTask_of_execLoop_none (b : ExecBehavior)
    (h : (execLoop b.executor_resps).1 = none) : runTask b = errorRec := by
  simp [runTask, h]

/-- Splitting `runTask` on a successful Executor loop. -/
lemma runTask_of_execLoop_some (b : ExecBehavior) (out : String)
    (h : (execLoop b.executor_resps).1 = some out) :
    runTask b =
      if (agent_critic b.critic1_resp).approved then
        finalizeRec out ((agent_critic b.critic1_resp).data.quality_score.getD 0) 0
      else
        finalizeRec ((agent_improver out b.improver_resp).output.getD out)
          ((agent_critic b.critic2_resp).data.quality_score.getD
            ((agent_critic b.critic1_resp).data.quality_score.getD 0)) 1 := by
  simp [runTask, h]

/-- The finalization record realizes the quality-threshold dichotomy. -/
lemma finalizeRec_spec (out : String) (score : ℤ) (calls : ℕ) :
    (finalizeRec out score calls).qualityScore = some score ∧
    ((finalizeRec out score calls).status = TaskStatus.done ↔ MIN_QUALITY ≤ score) ∧
    ((finalizeRec out score calls).status = TaskStatus.done_flagged ↔ score < MIN_QUALITY) := by
  by_cases h : MIN_QUALITY ≤ score <;>
    refine ⟨rfl, ?_, ?_⟩ <;> simp [finalizeRec, h] <;> omega

/-- A finalization record never carries the `error` status. -/
lemma finalizeRec_status_ne_error (out : String) (score : ℤ) (calls : ℕ) :
    (finalizeRec out score calls).status ≠ TaskStatus.error := by
  unfold finalizeRec
  by_cases h : MIN_QUALITY ≤ score <;> simp [h]

/-!
### The claims
-/

/-- Claim C1: an Evaluator run over a structured response is approved iff
the response's verdict is `"accept"` and its overall confidence (0 when
the field is absent) is at least `MIN_CONFIDENCE` = 70; a run whose
underlying call fails is never approved. -/
theorem evaluator_approval_iff_accept_and_confidence :
    MIN_CONFIDENCE = 70 ∧
    (∀ d : EvalData,
      (agent_evaluator (Except.ok d)).approved = true ↔
        (d.verdict.getD "reject" = "accept" ∧ MIN_CONFIDENCE ≤ d.overall_confidence.getD 0)) ∧
    (∀ e : String, (agent_evaluator (Except.error e)).approved = false) := by
  refine ⟨rfl, fun d => ?_, fun e => rfl⟩
  simp [agent_evaluator, Bool.and_eq_true, decide_eq_true_iff, beq_iff_eq]

/-- Claim C4 counterexample: contrary to the claim's first vector, on the
input "$500/month" the extraction does yield a value, "$500" — the
salary-exclusion regex matches the word form `per month` (and `salar`,
`commission`, `annual`, `hourly`), not the slash form. -/
theorem extract_pay_slash_month_yields_value :
    extract_pay "$500/month" = some "$500" := by decide

/-- Claim C4 amended: the extraction vectors hold with the salary vector
written in the word form matched by the exclusion regex: "$500 per month"
alone yields no value (salary-pattern exclusion), "$50 and $120" yields
the maximum value under the cap ($120), and "$50,000" alone yields no
value (exceeds the per-task cap). -/
theorem extract_pay_vectors :
    extract_pay "$500 per month" = none ∧
    extract_pay "$50 and $120" = some "$120" ∧
    extract_pay "$50,000" = none := by decide

/-- Claim C8 evaluation at the failing input: with three consecutive
rate-limit signals the backend waits the increasing delays 30, 60 and 90
seconds, but then falls out of its retry loop and yields Python's implicit
`None` (`returnedNone`) instead of surfacing a failure to the calling
stage. -/
theorem gemini_rate_limit_exhaustion_returns_none :
    geminiModel (fun _ => GenResp.rateLimited) =
      (GemResult.returnedNone, [30, 60, 90]) := by decide

/-- Claim C2: a fulfillment run that finalizes (does not end in `error`)
persists a quality score, has status `done` iff that score is at least
`MIN_QUALITY` and `done_flagged` iff it is below (so the two are mutually
exclusive); and both are terminal: the pipeline only ever picks up records
whose status is `approved`. -/
theorem done_iff_quality_threshold :
    (∀ b : ExecBehavior, (runTask b).status ≠ TaskStatus.error →
      ∃ s : ℤ, (runTask b).qualityScore = some s ∧
        ((runTask b).status = TaskStatus.done ↔ MIN_QUALITY ≤ s) ∧
        ((runTask b).status = TaskStatus.done_flagged ↔ s < MIN_QUALITY)) ∧
    (∀ (tasks : List (String × TaskStatus)) (kv : String × TaskStatus),
      kv ∈ selectApproved tasks → kv.2 = TaskStatus.approved) := by
  constructor
  · intro b hb
    cases hx : (execLoop b.executor_resps).1 with
    | none =>
      rw [runTask_of_execLoop_none b hx] at hb
      exact absurd rfl hb
    | some out =>
      rw [runTask_of_execLoop_some b out hx]
      by_cases hc : (agent_critic b.critic1_resp).approved = true
      · rw [if_pos hc]
        exact ⟨_, (finalizeRec_spec _ _ _).1, (finalizeRec_spec _ _ _).2.1,
          (finalizeRec_spec _ _ _).2.2⟩
      · rw [if_neg hc]
        exact ⟨_, (finalizeRec_spec _ _ _).1, (finalizeRec_spec _ _ _).2.1,
          (finalizeRec_spec _ _ _).2.2⟩
  · intro tasks kv h
    simp only [selectApproved, List.mem_filter, decide_eq_true_eq] at h
    exact h.2

/-- Claim C2 witness: a concrete finalizing run (first review scores 80)
satisfies the dichotomy, and a concrete `approved` record passes the
selection filter only with status `approved`. -/
theorem done_iff_quality_threshold_applied :
    (∃ s : ℤ, (runTask bHighScore).qualityScore = some s ∧
      ((runTask bHighScore).status = TaskStatus.done ↔ MIN_QUALITY ≤ s) ∧
      ((runTask bHighScore).status = TaskStatus.done_flagged ↔ s < MIN_QUALITY)) ∧
    ("t1", TaskStatus.approved).2 = TaskStatus.approved :=
  ⟨done_iff_quality_threshold.1 bHighScore (by decide),
   done_iff_quality_threshold.2 [("t1", TaskStatus.approved)] ("t1", TaskStatus.approved)
    (by simp [selectApproved])⟩

/-- Claim C3: the improvement loop runs at most once per Task; when the
first review rejects (and the Executor succeeded), the Improver runs
exactly once, and if the re-review score is still below `MIN_QUALITY` the
Task finalizes as `done_flagged` rather than looping again. -/
theorem improver_at_most_once :
    ∀ b : ExecBehavior,
      (runTask b).improverCalls ≤ 1 ∧
      ((agent_critic b.critic1_resp).approved = false →
        (execLoop b.executor_resps).1 ≠ none →
        (runTask b).improverCalls = 1 ∧
        ((agent_critic b.critic2_resp).data.quality_score.getD
            ((agent_critic b.critic1_resp).data.quality_score.getD 0) < MIN_QUALITY →
          (runTask b).status = TaskStatus.done_flagged)) := by
  intro b
  cases hx : (execLoop b.executor_resps).1 with
  | none =>
    rw [runTask_of_execLoop_none b hx]
    exact ⟨by simp [errorRec], fun _ hne => absurd rfl hne⟩
  | some out =>
    rw [runTask_of_execLoop_some b out hx]
    by_cases hc : (agent_critic b.critic1_resp).approved = true
    · rw [if_pos hc]
      refine ⟨by simp [finalizeRec], fun hfalse _ => ?_⟩
      rw [hc] at hfalse
      cases hfalse
    · rw [if_neg hc]
      exact ⟨by simp [finalizeRec], fun _ _ =>
        ⟨rfl, fun hlt => (finalizeRec_spec _ _ _).2.2.mpr hlt⟩⟩

/-- Claim C3 witness: in the concrete run whose first review scores 40 and
whose re-review scores 50, the Improver runs exactly once and the Task
finalizes as `done_flagged`. -/
theorem improver_at_most_once_applied :
    (runTask bLowRescore).improverCalls = 1 ∧
    (runTask bLowRescore).status = TaskStatus.done_flagged :=
  ⟨((improver_at_most_once bLowRescore).2 (by decide) (by decide)).1,
   ((improver_at_most_once bLowRescore).2 (by decide) (by decide)).2 (by decide)⟩

/-- Claim C5: in the Scout retry loop, an attempt rejected with a
definitive reason (after any run of non-approved, non-definitive attempts)
ends the stage at that attempt; and when every attempt is non-approved
with a non-definitive reason, all `MAX_RETRIES` = 3 attempts are consumed
and the item ends rejected. -/
theorem scout_retry_policy :
    ∀ resps : ℕ → Except String ScoutData,
      (∀ k, k < MAX_RETRIES →
        (∀ i, i < k → (agent_scout (resps i)).approved = false ∧
          (agent_scout (resps i)).reason ∉ definitiveReasons) →
        (agent_scout (resps k)).approved = false →
        (agent_scout (resps k)).reason ∈ definitiveReasons →
        scoutLoop resps = (agent_scout (resps k), k + 1)) ∧
      ((∀ i, i < MAX_RETRIES → (agent_scout (resps i)).approved = false ∧
          (agent_scout (resps i)).reason ∉ definitiveReasons) →
        scoutLoop resps = (agent_scout (resps (MAX_RETRIES - 1)), MAX_RETRIES) ∧
        (scoutLoop resps).1.approved = false) := by
  intro resps
  constructor
  · intro k hk hpre h1 h2
    have hk3 : k < 3 := hk
    interval_cases k
    · simp [scoutLoop, h1, h2]
    · obtain ⟨a0, d0⟩ := hpre 0 (by omega)
      simp [scoutLoop, a0, d0, h1, h2]
    · obtain ⟨a0, d0⟩ := hpre 0 (by omega)
      obtain ⟨a1, d1⟩ := hpre 1 (by omega)
      simp [scoutLoop, a0, d0, a1, d1, h1, h2]
  · intro h
    obtain ⟨a0, d0⟩ := h 0 (by decide)
    obtain ⟨a1, d1⟩ := h 1 (by decide)
    obtain ⟨a2, d2⟩ := h 2 (by decide)
    refine ⟨by simp [MAX_RETRIES, scoutLoop, a0, d0, a1, d1], ?_⟩
    simp [scoutLoop, a0, d0, a1, d1, a2]

/-- Claim C5 witness: a first-attempt `self_promotion` rejection stops the
loop after one attempt, and three flaky attempts consume the whole budget
and end rejected. -/
theorem scout_retry_policy_applied :
    scoutLoop wScoutDefinitive = (agent_scout (wScoutDefinitive 0), 1) ∧
    scoutLoop wScoutFlaky = (agent_scout (wScoutFlaky (MAX_RETRIES - 1)), MAX_RETRIES) ∧
    (scoutLoop wScoutFlaky).1.approved = false :=
  ⟨(scout_retry_policy wScoutDefinitive).1 0 (by decide)
      (fun i hi => absurd hi (Nat.not_lt_zero i)) (by decide) (by decide),
   ((scout_retry_policy wScoutFlaky).2
      (fun i _ => ⟨rfl, show ("scout_error: boom" : String) ∉ definitiveReasons by decide⟩)).1,
   ((scout_retry_policy wScoutFlaky).2
      (fun i _ => ⟨rfl, show ("scout_error: boom" : String) ∉ definitiveReasons by decide⟩)).2⟩

/-- Claim C6: an Executor output whose stripped length is below 150 is a
failed attempt, never a success; the retry loop makes at most
`MAX_RETRIES` = 3 attempts; and when every attempt fails the Task ends
with terminal status `error` and a diagnostic message, not with `done` or
`done_flagged`. -/
theorem executor_short_output_and_exhaustion :
    (∀ s : String, strippedLength s < 150 → (agent_executor (Except.ok s)).approved = false) ∧
    (∀ resps : ℕ → Except String String, (execLoop resps).2 ≤ MAX_RETRIES) ∧
    (∀ b : ExecBehavior,
      (∀ i, i < MAX_RETRIES → (agent_executor (b.executor_resps i)).approved = false) →
      (runTask b).status = TaskStatus.error ∧
      (runTask b).errorMsg = some "Executor failed after 3 attempts" ∧
      (runTask b).status ≠ TaskStatus.done ∧
      (runTask b).status ≠ TaskStatus.done_flagged) := by
  refine ⟨fun s h => ?_, fun resps => ?_, fun b h => ?_⟩
  · simp [agent_executor, h]
  · simp only [execLoop]
    split_ifs <;> norm_num [MAX_RETRIES]
  · have hx : (execLoop b.executor_resps).1 = none := by
      have h0 := h 0 (by decide)
      have h1 := h 1 (by decide)
      have h2 := h 2 (by decide)
      simp [execLoop, h0, h1, h2]
    rw [runTask_of_execLoop_none b hx]
    exact ⟨rfl, by decide, by decide, by decide⟩

/-- Claim C6 witness: a two-character output is a failed attempt, and the
run whose every attempt produces it ends in `error`. -/
theorem executor_short_output_and_exhaustion_applied :
    (agent_executor (Except.ok "hi")).approved = false ∧
    (runTask bShortOutput).status = TaskStatus.error :=
  ⟨executor_short_output_and_exhaustion.1 "hi" (by decide),
   (executor_short_output_and_exhaustion.2.2 bShortOutput (fun i _ => rfl)).1⟩

/-- Claim C7: a Planner call failure yields an approved outcome with the
empty blueprint, a Critic call failure yields an approved outcome with the
neutral default score `MIN_QUALITY`, and whenever the Executor succeeds the
Task does not end in `error`, whatever the Planner and Critic calls did. -/
theorem planner_critic_failures_never_abort :
    (∀ r : Except String PlanData, (agent_planner r).approved = true) ∧
    (∀ e : String, (agent_planner (Except.error e)).data = []) ∧
    (∀ e : String, (agent_critic (Except.error e)).approved = true ∧
      (agent_critic (Except.error e)).data.quality_score = some MIN_QUALITY) ∧
    (∀ b : ExecBehavior, (execLoop b.executor_resps).1 ≠ none →
      (runTask b).status ≠ TaskStatus.error) := by
  refine ⟨fun r => ?_, fun e => rfl, fun e => ⟨rfl, rfl⟩, fun b hb => ?_⟩
  · cases r <;> rfl
  · cases hx : (execLoop b.executor_resps).1 with
    | none => exact absurd hx hb
    | some out =>
      rw [runTask_of_execLoop_some b out hx]
      by_cases hc : (agent_critic b.critic1_resp).approved = true
      · rw [if_pos hc]
        exact finalizeRec_status_ne_error _ _ _
      · rw [if_neg hc]
        exact finalizeRec_status_ne_error _ _ _

/-- Claim C7 witness: the concrete run where every Planner, Critic and
Improver call fails but the Executor succeeds does not end in `error`. -/
theorem planner_critic_failures_never_abort_applied :
    (runTask bDegraded).status ≠ TaskStatus.error :=
  planner_critic_failures_never_abort.2.2.2 bDegraded (by decide)

/-- Claim C9: an item whose id is already a key of the task collection at
the start of the run is neither evaluated again nor persisted again by
intake. -/
theorem intake_dedup_by_id :
    ∀ (existingIds : List String) (raw : List RawItem)
      (scoutR : RawItem → ℕ → Except String ScoutData)
      (evalR : RawItem → Except String EvalData) (tid : String),
      tid ∈ existingIds →
      tid ∉ (fetchRun existingIds raw scoutR evalR).evaluatedIds ∧
      tid ∉ (fetchRun existingIds raw scoutR evalR).persisted.map Prod.fst := by
  intro existingIds raw scoutR evalR tid htid
  have key : ∀ t ∈ raw.filter (fun t => decide (t.id ∉ existingIds)), t.id ≠ tid := by
    intro t ht heq
    rw [List.mem_filter] at ht
    exact (of_decide_eq_true ht.2) (heq ▸ htid)
  constructor
  · intro hmem
    simp only [fetchRun, List.mem_map] at hmem
    obtain ⟨t, ht, hid⟩ := hmem
    exact key t ht hid
  · intro hmem
    simp only [fetchRun, List.map_map, List.mem_map, Function.comp] at hmem
    obtain ⟨t, ht, hid⟩ := hmem
    exact key t (List.mem_filter.mp ht).1 hid

/-- Claim C9 witness: with "abc123" already stored, the item of that id is
neither evaluated nor persisted by the run. -/
theorem intake_dedup_by_id_applied :
    "abc123" ∉ (fetchRun ["abc123"] [wItem] (fun _ _ => Except.error "x")
      (fun _ => Except.error "x")).evaluatedIds ∧
    "abc123" ∉ ((fetchRun ["abc123"] [wItem] (fun _ _ => Except.error "x")
      (fun _ => Except.error "x")).persisted.map Prod.fst) :=
  intake_dedup_by_id ["abc123"] [wItem] (fun _ _ => Except.error "x")
    (fun _ => Except.error "x") "abc123" (by simp)

/-- Claim C10: a failed Critic call degrades to `quality_score` exactly 75,
the default quality threshold; hence a run whose first review call fails
(and whose Executor succeeded) skips the improvement loop and finalizes as
`done` with qualityScore 75. -/
theorem critic_failure_scores_default_threshold :
    ∀ (e : String) (b : ExecBehavior),
      (agent_critic (Except.error e)).data.quality_score = some 75 ∧
      MIN_QUALITY = 75 ∧
      (b.critic1_resp = Except.error e →
        (execLoop b.executor_resps).1 ≠ none →
        (runTask b).status = TaskStatus.done ∧
        (runTask b).qualityScore = some 75 ∧
        (runTask b).improverCalls = 0) := by
  intro e b
  refine ⟨rfl, rfl, fun hce hb => ?_⟩
  cases hx : (execLoop b.executor_resps).1 with
  | none => exact absurd hx hb
  | some out =>
    rw [runTask_of_execLoop_some b out hx, hce]
    have happ : (agent_critic (Except.error e)).approved = true := rfl
    rw [if_pos happ]
    exact ⟨rfl, rfl, rfl⟩

/-- Claim C10 witness: the concrete run whose first review call fails
finalizes as `done` with qualityScore 75 and no Improver invocation. -/
theorem critic_failure_scores_default_threshold_applied :
    (runTask bCriticDown).status = TaskStatus.done ∧
    (runTask bCriticDown).qualityScore = some 75 ∧
    (runTask bCriticDown).improverCalls = 0 :=
  (critic_failure_scores_default_threshold "kaboom" bCriticDown).2.2 rfl (by decide)

end Taskforce
